import Mathlib

/-
Shallow embedding of pyais.py, an AIS (AIVDM) sentence decoder.

Conventions of the embedding:
* Python strings are Lean String; slicing s[a:b] clamps like Python and is
  total, while single-index access s[i] can raise IndexError and is modelled
  in Except.
* Machine integers do not occur; Python ints are Int (or Nat where the code
  can only produce non-negative values, e.g. XOR checksums of character codes).
* Python float division by the literal scale factors 600000.0 / 10.0 and the
  product with 0.1 are modelled as exact rational arithmetic over Rat; the
  claims settled below depend only on coarse magnitudes, far outside the
  rounding error of binary64.
* Fallible operations return Except: int() / chr() ValueError, dict KeyError,
  string IndexError, and the bitstring library errors raised by
  BitArray(bin=...).int on an empty or non-binary string.  int() with
  underscore digit grouping or surrounding whitespace never arises from the
  character sets reachable here and is not modelled.
-/

/-- Errors that can be raised inside the per-type field decoders and the
helpers they use (all distinguishable in Python by exception type/message). -/
inductive DexErr where
  | intParse : DexErr
  | chrErr : DexErr
  | keyErr : Int → DexErr
  | indexErr : DexErr
  | bitarrayErr : DexErr
deriving DecidableEq, Repr

/-- Unhandled Python exceptions observable from decode(): the ValueError from
unpacking msg.split into 7 names, or any error propagated from the body. -/
inductive PyExn where
  | unpackErr : PyExn
  | err : DexErr → PyExn
deriving DecidableEq, Repr

/-- Python slice s[a:b] for non-negative bounds: clamping, never failing. -/
def pySlice (s : String) (a b : Nat) : String :=
  String.mk ((s.data.drop a).take (b - a))

/-- Python slice s[a:] for a non-negative bound. -/
def pySliceFrom (s : String) (a : Nat) : String :=
  String.mk (s.data.drop a)

/-- Python single-character index s[i]: the one-character string, or
IndexError when i is out of range. -/
def pyIndex (s : String) (i : Nat) : Except DexErr String :=
  match s.data.get? i with
  | some c => .ok (String.mk [c])
  | none => .error .indexErr

/-- Splitting a character list at every comma, keeping empty fields, built
from the right. -/
def pySplitGo : List Char → List String
  | [] => [""]
  | c :: rest =>
    match pySplitGo rest with
    | [] => []
    | f :: fs => if c = ',' then "" :: f :: fs else String.mk (c :: f.data) :: fs

/-- Python msg.split(sep) with the one-character separator ',' as used by
decode: fields between commas, empty fields preserved, [""] for "". -/
def pySplit (msg : String) : List String :=
  pySplitGo msg.data

/-- Test for the two binary digit characters. -/
def isBinChar (c : Char) : Bool :=
  c = '0' || c = '1'

/-- Value of a most-significant-bit-first binary digit list (non-digits would
weigh 0; callers establish all characters are binary digits). -/
def bitsVal (l : List Char) : Nat :=
  l.foldl (fun a c => 2 * a + (if c = '1' then 1 else 0)) 0

/-- Python int(s, 2): an optional sign followed by at least one binary digit;
none models the ValueError raised on any other shape. -/
def pyIntBin? (s : String) : Option Int :=
  if s.data.isEmpty then none
  else if s.data.head! = '-' then
    if s.data.tail.isEmpty then none
    else if s.data.tail.all isBinChar then some (-(bitsVal s.data.tail : Int)) else none
  else if s.data.all isBinChar then some (bitsVal s.data : Int) else none

/-- Hexadecimal digit test, both letter cases. -/
def isHexChar (c : Char) : Bool :=
  c.isDigit || ('a' ≤ c && c ≤ 'f') || ('A' ≤ c && c ≤ 'F')

/-- Value of one hexadecimal digit character. -/
def hexCharVal (c : Char) : Nat :=
  if c.isDigit then c.toNat - 48
  else if 'a' ≤ c && c ≤ 'f' then c.toNat - 87
  else c.toNat - 55

/-- Value of a hexadecimal digit list, most significant digit first. -/
def hexVal (l : List Char) : Nat :=
  l.foldl (fun a c => 16 * a + hexCharVal c) 0

/-- Python int("0x" ++ t, 16) as a function of t: succeeds exactly when t is
a non-empty run of hex digits; none models the ValueError otherwise. -/
def pyIntHex0x? (t : String) : Option Nat :=
  if t.data.isEmpty then none
  else if t.data.all isHexChar then some (hexVal t.data) else none

/-- Binary digit characters of n, as produced by Python format(n, 'b'). -/
def binDigits (n : Nat) : List Char :=
  Nat.toDigits 2 n

/-- Left-pad a digit list with zeros up to width w (never truncates). -/
def padZeros (l : List Char) (w : Nat) : List Char :=
  List.replicate (w - l.length) '0' ++ l

/-- Python f-string formatting with spec 06b: sign-aware zero padding to a
MINIMUM width of 6; values needing more than 6 positions come out longer. -/
def pyFormatB6 (v : Int) : String :=
  if v < 0 then String.mk ('-' :: padZeros (binDigits v.natAbs) 5)
  else String.mk (padZeros (binDigits v.toNat) 6)

/-- Fallback label constant UNDEFINED of pyais.py. -/
def UNDEFINED : String := "Undefined"

/-- Fallback label constant RESERVED of pyais.py. -/
def RESERVED : String := "Reserved"

/-- NAVIGATION_STATUS dict of pyais.py (keys 0..15, a total 4-bit table). -/
def NAVIGATION_STATUS : List (Int × String) :=
  [(0, "Under way using engine"),
   (1, "At anchor"),
   (2, "Not under command"),
   (3, "Restricted manoeuverability"),
   (4, "Constrained by her draught"),
   (5, "Moored"),
   (6, "Aground"),
   (7, "Engaged in Fishing"),
   (8, "Under way sailing"),
   (9, "Reserved"),
   (10, "Reserved"),
   (11, "Reserved"),
   (12, "Reserved"),
   (13, "Reserved"),
   (14, "AIS-SART is active"),
   (15, "Undefined")]

/-- MANEUVER_INDICATOR dict of pyais.py (keys 0..2 only). -/
def MANEUVER_INDICATOR : List (Int × String) :=
  [(0, "Not available"),
   (1, "No special maneuver"),
   (2, "Special maneuver")]

/-- EPFD_TYPE dict of pyais.py (keys 0..8 only). -/
def EPFD_TYPE : List (Int × String) :=
  [(0, "Undefined"),
   (1, "GPS"),
   (2, "GLONASS"),
   (3, "GPS/GLONASS"),
   (4, "Loran-C"),
   (5, "Chayka"),
   (6, "Integrated navigation system"),
   (7, "Surveyed"),
   (8, "Galileo")]

/-- SHIP_TYPE dict of pyais.py (sparse keys: 0 and 20..99). -/
def SHIP_TYPE : List (Int × String) :=
  [(0, "Not available"),
   (20, "Wing in ground (WIG)"),
   (21, "Wing in ground (WIG), Hazardous category A"),
   (22, "Wing in ground (WIG), Hazardous category B"),
   (23, "Wing in ground (WIG), Hazardous category C"),
   (24, "Wing in ground (WIG), Hazardous category D"),
   (25, "WIG Reserved"),
   (26, "WIG Reserved"),
   (27, "WIG Reserved"),
   (28, "WIG Reserved"),
   (29, "WIG Reserved"),
   (30, "Fishing"),
   (31, "Towing"),
   (32, "Towing,length exceeds 200m or breadth exceeds 25m"),
   (33, "Dredging or underwater ops"),
   (34, "Diving ops"),
   (35, "Military ops"),
   (36, "Sailing"),
   (37, "Pleasure Craft"),
   (38, "Reserved"),
   (39, "Reserved"),
   (40, "High speed craft (HSC)"),
   (41, "High speed craft (HSC), Hazardous category A"),
   (42, "High speed craft (HSC), Hazardous category B"),
   (43, "High speed craft (HSC), Hazardous category C"),
   (44, "High speed craft (HSC), Hazardous category D"),
   (45, "High speed craft (HSC), Reserved"),
   (46, "High speed craft (HSC), Reserved"),
   (47, "High speed craft (HSC), Reserved"),
   (48, "High speed craft (HSC), Reserved"),
   (49, "High speed craft (HSC), No additional information"),
   (50, "Pilot Vessel"),
   (51, "Search and Rescue vessel"),
   (52, "Tug"),
   (53, "Port Tender"),
   (54, "Anti-pollution equipment"),
   (55, "Law Enforcement"),
   (56, "Spare - Local Vessel"),
   (57, "Spare - Local Vessel"),
   (58, "Medical Transport"),
   (59, "Noncombatant ship according to RR Resolution No. 18"),
   (60, "Passenger"),
   (61, "Passenger, Hazardous category A"),
   (62, "Passenger, Hazardous category B"),
   (63, "Passenger, Hazardous category C"),
   (64, "Passenger, Hazardous category D"),
   (65, "Passenger, Reserved"),
   (66, "Passenger, Reserved"),
   (67, "Passenger, Reserved"),
   (68, "Passenger, Reserved"),
   (69, "Passenger, No additional information"),
   (70, "Cargo"),
   (71, "Cargo, Hazardous category A"),
   (72, "Cargo, Hazardous category B"),
   (73, "Cargo, Hazardous category C"),
   (74, "Cargo, Hazardous category D"),
   (75, "Cargo, Reserved"),
   (76, "Cargo, Reserved"),
   (77, "Cargo, Reserved"),
   (78, "Cargo, Reserved"),
   (79, "Cargo, No additional information"),
   (80, "Tanker"),
   (81, "Tanker, Hazardous category A"),
   (82, "Tanker, Hazardous category B"),
   (83, "Tanker, Hazardous category C"),
   (84, "Tanker, Hazardous category D"),
   (85, "Tanker, Reserved "),
   (86, "Tanker, Reserved "),
   (87, "Tanker, Reserved "),
   (88, "Tanker, Reserved "),
   (89, "Tanker, No additional information"),
   (90, "Other Type"),
   (91, "Other Type, Hazardous category A"),
   (92, "Other Type, Hazardous category B"),
   (93, "Other Type, Hazardous category C"),
   (94, "Other Type, Hazardous category D"),
   (95, "Other Type, Reserved"),
   (96, "Other Type, Reserved"),
   (97, "Other Type, Reserved"),
   (98, "Other Type, Reserved"),
   (99, "Other Type, No additional information")]

/-- Adjustment applied per character by decode_ascii6 of pyais.py:
v = ord(c) - 48, then v -= 8 when v > 40 (Python int arithmetic, so v can be
negative or exceed 63 for characters outside the armor alphabet). -/
def armorVal (c : Char) : Int :=
  let v : Int := (c.toNat : Int) - 48
  if v > 40 then v - 8 else v

/-- decode_ascii6 of pyais.py: accumulate, for each payload character, the
f-string 06b rendering of its adjusted value. -/
def decode_ascii6 (data : String) : String :=
  data.data.foldl (fun binary_string c => binary_string ++ pyFormatB6 (armorVal c)) ""

/-- split_str of pyais.py: ceil(len/chunk) substrings s[i*chunk:(i+1)*chunk]. -/
def split_str (string : String) (chunk_size : Nat := 6) : List String :=
  (List.range ((string.length + chunk_size - 1) / chunk_size)).map
    (fun i => pySlice string (i * chunk_size) ((i + 1) * chunk_size))

/-- Loop body of ascii6 of pyais.py over the chunk list: per chunk c,
int(c, 2), add 64 when below 32, chr it, and with filler stripping enabled
return the accumulated string at the first chunk giving the character at
code point 64. -/
def ascii6Go (ignore_tailing_fillers : Bool) : List String → Except DexErr String
  | [] => .ok ""
  | ch :: rest =>
    match pyIntBin? ch with
    | none => .error .intParse
    | some c =>
      if (if c < 32 then c + 64 else c) < 0 then .error .chrErr
      else
        if ignore_tailing_fillers ∧ Char.ofNat (if c < 32 then c + 64 else c).toNat = '@'
        then .ok ""
        else Except.map
          (fun s => String.mk (Char.ofNat (if c < 32 then c + 64 else c).toNat :: s.data))
          (ascii6Go ignore_tailing_fillers rest)

/-- ascii6 of pyais.py: decode a bit string into packed 6-bit text. -/
def ascii6 (data : String) (ignore_tailing_fillers : Bool := true) : Except DexErr String :=
  ascii6Go ignore_tailing_fillers (split_str data)

/-- signed of pyais.py: BitArray(bin=bit_vector).int, i.e. two's-complement
of the bit string; the bitstring library raises on an empty or non-binary
string, modelled as bitarrayErr. -/
def signed (bit_vector : String) : Except DexErr Int :=
  if bit_vector.data.isEmpty then .error .bitarrayErr
  else if bit_vector.data.all isBinChar then
    .ok ((bitsVal bit_vector.data : Int) -
      (if bit_vector.data.head! = '1' then (2 : Int) ^ bit_vector.data.length else 0))
  else .error .bitarrayErr

/-- to_int of pyais.py: int(bit_string, 2) but 0 for the empty string (the
base argument is 2 at every call site, including the defaulted ones). -/
def to_int (bit_string : String) : Except DexErr Int :=
  if bit_string.data.isEmpty then .ok 0
  else
    match pyIntBin? bit_string with
    | some v => .ok v
    | none => .error .intParse

/-- Loop of checksum of pyais.py: running XOR of character codes, stopping
just before the first star. -/
def checksumGo (c_sum : Nat) : List Char → Nat
  | [] => c_sum
  | c :: rest => if c = '*' then c_sum else checksumGo (Nat.xor c_sum c.toNat) rest

/-- checksum of pyais.py: XOR over msg[1:] up to (excluding) the star. -/
def checksum (msg : String) : Nat :=
  checksumGo 0 (msg.data.drop 1)

/-- Python dict access table[k]: the value, or KeyError. -/
def dictGet (table : List (Int × String)) (k : Int) : Except DexErr String :=
  match table.lookup k with
  | some v => .ok v
  | none => .error (.keyErr k)

/-- Python guarded access (table[k] if k in table.keys() else UNDEFINED). -/
def dictGetD (table : List (Int × String)) (k : Int) : String :=
  match table.lookup k with
  | some v => v
  | none => UNDEFINED

/-- Record returned by decode_msg_1 (types 1/2/3 position report); repeat is
a Lean keyword, so that field is repeat_. -/
structure Msg1 where
  type : Int
  repeat_ : Int
  mmsi : Int
  status : Int × String
  turn : Int
  speed : Int
  accuracy : Int
  lon : Rat
  lat : Rat
  course : Rat
  heading : Int
  second : Int
  maneuver : Int × String
  raim : Bool
  radio : Int
deriving DecidableEq, Repr

/-- Record returned by decode_msg_4 (base station report). -/
structure Msg4 where
  type : Int
  repeat_ : Int
  mmsi : Int
  year : Int
  month : Int
  day : Int
  hour : Int
  minute : Int
  second : Int
  accuracy : Bool
  lon : Rat
  lat : Rat
  epfd : Int × String
  raim : Bool
  radio : Int
deriving DecidableEq, Repr

/-- Record returned by decode_msg_5 (static and voyage data). -/
structure Msg5 where
  type : Int
  repeat_ : Int
  mmsi : Int
  ais_version : Int
  imo : Int
  callsign : String
  shipname : String
  shiptype : Int × String
  to_bow : Int
  to_stern : Int
  to_port : Int
  to_starboard : Int
  epfd : Int × String
  month : Int
  day : Int
  hour : Int
  minute : Int
  draught : Rat
  destination : String
deriving DecidableEq, Repr

/-- Record returned by decode_msg_18 (class B position report). -/
structure Msg18 where
  type : Int
  repeat_ : Int
  mmsi : Int
  speed : Int
  accuracy : Bool
  lon : Rat
  lat : Rat
  course : Rat
  heading : Int
  second : Int
  regional : Int
  cs : Bool
  display : Bool
  dsc : Bool
  band : Bool
  msg22 : Bool
  assigned : Bool
  raim : Bool
  radio : Int
deriving DecidableEq, Repr

/-- decode_msg_1 of pyais.py, with the fallible subexpressions sequenced in
Python evaluation order: the two leading assignments, then the dict literal
entries left to right.  NAVIGATION_STATUS[status] and
MANEUVER_INDICATOR[maneuver] are unguarded dict accesses. -/
def decode_msg_1 (bit_vector : String) : Except DexErr Msg1 := do
  let status ← to_int (pySlice bit_vector 38 42)
  let maneuver ← to_int (pySlice bit_vector 143 145)
  let ty ← to_int (pySlice bit_vector 0 6)
  let rep ← to_int (pySlice bit_vector 6 8)
  let mmsi ← to_int (pySlice bit_vector 8 38)
  let statusLabel ← dictGet NAVIGATION_STATUS status
  let turn ← signed (pySlice bit_vector 42 50)
  let speed ← to_int (pySlice bit_vector 50 60)
  let acc ← pyIndex bit_vector 60
  let accuracy ← to_int acc
  let lon ← signed (pySlice bit_vector 61 89)
  let lat ← signed (pySlice bit_vector 89 116)
  let course ← to_int (pySlice bit_vector 116 128)
  let heading ← to_int (pySlice bit_vector 128 137)
  let second ← to_int (pySlice bit_vector 137 143)
  let maneuverLabel ← dictGet MANEUVER_INDICATOR maneuver
  let ra ← pyIndex bit_vector 148
  let raim ← to_int ra
  let radio ← to_int (pySliceFrom bit_vector 149)
  return { type := ty, repeat_ := rep, mmsi := mmsi,
           status := (status, statusLabel), turn := turn, speed := speed,
           accuracy := accuracy,
           lon := Rat.divInt lon 600000, lat := Rat.divInt lat 600000,
           course := Rat.divInt course 10, heading := heading, second := second,
           maneuver := (maneuver, maneuverLabel), raim := raim ≠ 0,
           radio := radio }

/-- decode_msg_2 of pyais.py: delegates to decode_msg_1. -/
def decode_msg_2 (bit_vector : String) : Except DexErr Msg1 :=
  decode_msg_1 bit_vector

/-- decode_msg_3 of pyais.py: delegates to decode_msg_1. -/
def decode_msg_3 (bit_vector : String) : Except DexErr Msg1 :=
  decode_msg_1 bit_vector

/-- decode_msg_4 of pyais.py.  Both lon and lat read signed(bit_vector[66:72])
with the same 600000.0 scale; the epfd lookup is guarded with fallback
UNDEFINED. -/
def decode_msg_4 (bit_vector : String) : Except DexErr Msg4 := do
  let epfd ← to_int (pySlice bit_vector 134 138)
  let ty ← to_int (pySlice bit_vector 0 6)
  let rep ← to_int (pySlice bit_vector 6 8)
  let mmsi ← to_int (pySlice bit_vector 8 38)
  let year ← to_int (pySlice bit_vector 38 52)
  let month ← to_int (pySlice bit_vector 52 56)
  let day ← to_int (pySlice bit_vector 56 61)
  let hour ← to_int (pySlice bit_vector 61 66)
  let minute ← to_int (pySlice bit_vector 66 72)
  let second ← to_int (pySlice bit_vector 72 78)
  let acc ← pyIndex bit_vector 78
  let accuracy ← to_int acc
  let lon ← signed (pySlice bit_vector 66 72)
  let lat ← signed (pySlice bit_vector 66 72)
  let ra ← pyIndex bit_vector 148
  let raim ← to_int ra
  let radio ← to_int (pySliceFrom bit_vector 148)
  return { type := ty, repeat_ := rep, mmsi := mmsi, year := year,
           month := month, day := day, hour := hour, minute := minute,
           second := second, accuracy := accuracy ≠ 0,
           lon := Rat.divInt lon 600000, lat := Rat.divInt lat 600000,
           epfd := (epfd, dictGetD EPFD_TYPE epfd), raim := raim ≠ 0,
           radio := radio }

/-- decode_msg_5 of pyais.py.  The shiptype lookup is guarded with fallback
UNDEFINED, while EPFD_TYPE[epfd] is an unguarded dict access. -/
def decode_msg_5 (bit_vector : String) : Except DexErr Msg5 := do
  let epfd ← to_int (pySlice bit_vector 270 274)
  let ship_type ← to_int (pySlice bit_vector 66 72)
  let ty ← to_int (pySlice bit_vector 0 6)
  let rep ← to_int (pySlice bit_vector 6 8)
  let mmsi ← to_int (pySlice bit_vector 8 38)
  let ais_version ← to_int (pySlice bit_vector 38 40)
  let imo ← to_int (pySlice bit_vector 40 70)
  let callsign ← ascii6 (pySlice bit_vector 70 112)
  let shipname ← ascii6 (pySlice bit_vector 112 232)
  let epfdLabel ← dictGet EPFD_TYPE epfd
  let to_bow ← to_int (pySlice bit_vector 240 249)
  let to_stern ← to_int (pySlice bit_vector 249 258)
  let to_port ← to_int (pySlice bit_vector 258 264)
  let to_starboard ← to_int (pySlice bit_vector 264 270)
  let month ← to_int (pySlice bit_vector 274 278)
  let day ← to_int (pySlice bit_vector 278 283)
  let hour ← to_int (pySlice bit_vector 283 288)
  let minute ← to_int (pySlice bit_vector 288 294)
  let draught ← to_int (pySlice bit_vector 294 302)
  let destination ← ascii6 (pySliceFrom bit_vector 302)
  return { type := ty, repeat_ := rep, mmsi := mmsi,
           ais_version := ais_version, imo := imo, callsign := callsign,
           shipname := shipname,
           shiptype := (ship_type, dictGetD SHIP_TYPE ship_type),
           to_bow := to_bow, to_stern := to_stern, to_port := to_port,
           to_starboard := to_starboard, epfd := (epfd, epfdLabel),
           month := month, day := day, hour := hour, minute := minute,
           draught := Rat.divInt draught 10, destination := destination }

/-- decode_msg_18 of pyais.py. -/
def decode_msg_18 (bit_vector : String) : Except DexErr Msg18 := do
  let ty ← to_int (pySlice bit_vector 0 6)
  let rep ← to_int (pySlice bit_vector 6 8)
  let mmsi ← to_int (pySlice bit_vector 8 38)
  let speed ← to_int (pySlice bit_vector 46 55)
  let acc ← pyIndex bit_vector 55
  let accuracy ← to_int acc
  let lon ← signed (pySlice bit_vector 56 85)
  let lat ← signed (pySlice bit_vector 85 112)
  let course ← to_int (pySlice bit_vector 112 124)
  let heading ← to_int (pySlice bit_vector 124 133)
  let second ← to_int (pySlice bit_vector 133 139)
  let regional ← to_int (pySlice bit_vector 139 141)
  let csS ← pyIndex bit_vector 141
  let cs ← to_int csS
  let dispS ← pyIndex bit_vector 142
  let display ← to_int dispS
  let dscS ← pyIndex bit_vector 143
  let dsc ← to_int dscS
  let bandS ← pyIndex bit_vector 144
  let band ← to_int bandS
  let msg22S ← pyIndex bit_vector 145
  let msg22 ← to_int msg22S
  let assignedS ← pyIndex bit_vector 146
  let assigned ← to_int assignedS
  let raS ← pyIndex bit_vector 147
  let raim ← to_int raS
  let radio ← to_int (pySliceFrom bit_vector 148)
  return { type := ty, repeat_ := rep, mmsi := mmsi, speed := speed,
           accuracy := accuracy ≠ 0,
           lon := Rat.divInt lon 600000, lat := Rat.divInt lat 600000,
           course := Rat.divInt course 10, heading := heading, second := second,
           regional := regional, cs := cs ≠ 0, display := display ≠ 0,
           dsc := dsc ≠ 0, band := band ≠ 0, msg22 := msg22 ≠ 0,
           assigned := assigned ≠ 0, raim := raim ≠ 0, radio := radio }

/-- Tagged successful decode value, one case per implemented message type. -/
inductive DecodedMsg where
  | m1 : Msg1 → DecodedMsg
  | m2 : Msg1 → DecodedMsg
  | m3 : Msg1 → DecodedMsg
  | m4 : Msg4 → DecodedMsg
  | m5 : Msg5 → DecodedMsg
  | m18 : Msg18 → DecodedMsg
deriving DecidableEq, Repr

/-- Observable result of one decode(msg) call.  The two print-and-return-None
branches are distinguishable in Python by their printed diagnostics, the
silent return None (a stub decoder for types 6-17 and 19-24, or a type code
outside 1..24) carries nothing, and unhandled exceptions escape the call. -/
inductive DecodeResult where
  | exn : PyExn → DecodeResult
  | invalidChecksum : DecodeResult
  | sentencingUnsupported : DecodeResult
  | retNone : DecodeResult
  | msg : DecodedMsg → DecodeResult
deriving DecidableEq, Repr

/-- Lift a per-type decoder result into the decode() result. -/
def wrapResult {α : Type} (inj : α → DecodedMsg) : Except DexErr α → DecodeResult
  | .ok r => .msg (inj r)
  | .error e => .exn (.err e)

/-- DECODE_MSG dispatch of pyais.py for 0 < msg_type < 25: entries 1..5 and
18 call the field decoders (2 and 3 via decode_msg_1), the stubs for 6..17
and 19..24 fall through to Python None. -/
def decodeDispatch (msg_type : Int) (decoded_data : String) : DecodeResult :=
  if msg_type = 1 then wrapResult DecodedMsg.m1 (decode_msg_1 decoded_data)
  else if msg_type = 2 then wrapResult DecodedMsg.m2 (decode_msg_2 decoded_data)
  else if msg_type = 3 then wrapResult DecodedMsg.m3 (decode_msg_3 decoded_data)
  else if msg_type = 4 then wrapResult DecodedMsg.m4 (decode_msg_4 decoded_data)
  else if msg_type = 5 then wrapResult DecodedMsg.m5 (decode_msg_5 decoded_data)
  else if msg_type = 18 then wrapResult DecodedMsg.m18 (decode_msg_18 decoded_data)
  else .retNone

/-- Body of decode of pyais.py after the 7-way unpacking succeeded, in source
order: armor expansion, type extraction from decoded_data[0:6], the checksum
gate comparing against int("0x" + chcksum[2:], 16), the fragmentation gate on
the raw fields, then dispatch for 0 < msg_type < 25, else None. -/
def decodeAfterSplit (msg n_sentences sentence_num data chcksum : String) : DecodeResult :=
  let decoded_data := decode_ascii6 data
  match pyIntBin? (pySlice decoded_data 0 6) with
  | none => .exn (.err .intParse)
  | some msg_type =>
    match pyIntHex0x? (pySliceFrom chcksum 2) with
    | none => .exn (.err .intParse)
    | some declared =>
      if checksum msg = declared then
        if n_sentences ≠ "1" ∨ sentence_num ≠ "1" then .sentencingUnsupported
        else if 0 < msg_type ∧ msg_type < 25 then decodeDispatch msg_type decoded_data
        else .retNone
      else .invalidChecksum

/-- decode of pyais.py: unpack the comma split of msg into exactly 7 names
(a ValueError otherwise), then run the body. -/
def decode (msg : String) : DecodeResult :=
  match pySplit msg with
  | [_m_typ, n_sentences, sentence_num, _seq_id, _channel, data, chcksum] =>
    decodeAfterSplit msg n_sentences sentence_num data chcksum
  | _ => .exn .unpackErr

/-- A bit string: every character is a binary digit. -/
def isBitStr (s : String) : Prop :=
  ∀ c ∈ s.data, isBinChar c

instance (s : String) : Decidable (isBitStr s) := by
  unfold isBitStr
  infer_instance

/-- The character produced from one 6-bit chunk by the ascii6 loop: unsigned
value, plus 64 when below 32, taken as a code point. -/
def specChunkChar (ch : String) : Char :=
  Char.ofNat (if bitsVal ch.data < 32 then bitsVal ch.data + 64 else bitsVal ch.data)

/-- The 168-bit all-zero payload expansion used as a concrete witness input. -/
def zeros168 : String := String.mk (List.replicate 168 '0')

/-- A 168-bit vector whose maneuver field bits [143:145) hold the value 3,
absent from MANEUVER_INDICATOR. -/
def maneuver3bv : String :=
  String.mk (List.replicate 143 '0' ++ ['1', '1'] ++ List.replicate 23 '0')

/-- A 274-bit vector whose EPFD field bits [270:274) hold the value 9,
absent from EPFD_TYPE. -/
def epfd9bv : String :=
  String.mk (List.replicate 270 '0' ++ ['1', '0', '0', '1'])

/-- A 168-bit vector whose longitude field bits [61:89) hold the maximal
positive two's-complement value 2^27 - 1. -/
def bigLonBv : String :=
  String.mk (List.replicate 62 '0' ++ List.replicate 27 '1' ++ List.replicate 79 '0')

/-- Longitude projection of a type-1 decode outcome. -/
def m1LonOf : Except DexErr Msg1 → Option Rat
  | .ok r => some r.lon
  | .error _ => none

/-- The record the type-4 decoder produces on the all-zero 168-bit vector. -/
def m4zero : Msg4 :=
  { type := 0, repeat_ := 0, mmsi := 0, year := 0, month := 0, day := 0, hour := 0,
    minute := 0, second := 0, accuracy := false, lon := 0, lat := 0,
    epfd := (0, "Undefined"), raim := false, radio := 0 }

/-- The record the type-5 decoder produces on the empty bit vector. -/
def m5empty : Msg5 :=
  { type := 0, repeat_ := 0, mmsi := 0, ais_version := 0, imo := 0, callsign := "",
    shipname := "", shiptype := (0, "Not available"), to_bow := 0, to_stern := 0,
    to_port := 0, to_starboard := 0, epfd := (0, "Undefined"), month := 0, day := 0,
    hour := 0, minute := 0, draught := 0, destination := "" }

/-- The record the types-1/2/3 decoder produces on the maximal-longitude
bit vector. -/
def m1big : Msg1 :=
  { type := 0, repeat_ := 0, mmsi := 0, status := (0, "Under way using engine"),
    turn := 0, speed := 0, accuracy := 0, lon := Rat.divInt 134217727 600000,
    lat := 0, course := 0, heading := 0, second := 0,
    maneuver := (0, "Not available"), raim := false, radio := 0 }

/-- Horner-step characterization of the bit-value fold from any accumulator. -/
theorem bitsVal_go (l : List Char) :
    ∀ a : Nat, l.foldl (fun a c => 2 * a + (if c = '1' then 1 else 0)) a
      = a * 2 ^ l.length + l.foldl (fun a c => 2 * a + (if c = '1' then 1 else 0)) 0 := by
  induction l with
  | nil => intro a; simp
  | cons c t ih =>
    intro a
    simp only [List.foldl_cons, List.length_cons]
    rw [ih (2 * a + _), ih (2 * 0 + _)]
    ring

/-- Peel one leading bit off the bit value. -/
theorem bitsVal_cons (c : Char) (t : List Char) :
    bitsVal (c :: t) = (if c = '1' then 1 else 0) * 2 ^ t.length + bitsVal t := by
  unfold bitsVal
  rw [List.foldl_cons, bitsVal_go]
  ring

/-- A bit list of length n denotes a value below 2 ^ n. -/
theorem bitsVal_lt (l : List Char) : bitsVal l < 2 ^ l.length := by
  induction l with
  | nil => simp [bitsVal]
  | cons c t ih =>
    rw [bitsVal_cons, List.length_cons, pow_succ]
    split <;> omega

/-- On a non-empty string of binary digits, Python int(s, 2) succeeds with the
most-significant-bit-first value. -/
theorem pyIntBin?_of_bits (s : String) (hne : s.data ≠ [])
    (hb : ∀ c ∈ s.data, isBinChar c) : pyIntBin? s = some (bitsVal s.data : Int) := by
  unfold pyIntBin?
  have h0 : ¬(s.data.isEmpty = true) := by
    simpa [List.isEmpty_iff] using hne
  have hh : isBinChar s.data.head! := by
    apply hb
    cases hd : s.data with
    | nil => exact absurd hd hne
    | cons c r => simp [List.head!]
  have hdash : ¬(s.data.head! = '-') := by
    intro hd
    rw [hd] at hh
    simp [isBinChar] at hh
  rw [if_neg h0, if_neg hdash, if_pos]
  rw [List.all_eq_true]
  exact hb

/-- Bounds and non-emptiness extracted from a successful signed conversion:
the two's-complement value of k bits lies in the interval from -(2 ^ (k-1))
up to (but excluding) 2 ^ (k-1). -/
theorem signed_ok_bounds (s : String) (v : Int) (h : signed s = .ok v) :
    s.data ≠ [] ∧
      -((2 : Int) ^ (s.data.length - 1)) ≤ v ∧ v < (2 : Int) ^ (s.data.length - 1) := by
  unfold signed at h
  by_cases h1 : s.data.isEmpty = true
  · rw [if_pos h1] at h
    exact absurd h (by simp)
  · rw [if_neg h1] at h
    by_cases h2 : s.data.all isBinChar = true
    · rw [if_pos h2] at h
      simp only [Except.ok.injEq] at h
      have hne : s.data ≠ [] := by
        simpa [List.isEmpty_iff] using h1
      refine ⟨hne, ?_⟩
      obtain ⟨c, rest, hd⟩ : ∃ c rest, s.data = c :: rest := by
        cases hds : s.data with
        | nil => exact absurd hds hne
        | cons c r => exact ⟨c, r, rfl⟩
      subst h
      rw [hd]
      simp only [List.head!, List.length_cons, Nat.add_sub_cancel]
      rw [bitsVal_cons]
      have hrest : bitsVal rest < 2 ^ rest.length := bitsVal_lt rest
      have h3 : ((bitsVal rest : Int)) < (2 : Int) ^ rest.length := by exact_mod_cast hrest
      have h2' : (0 : Int) ≤ (bitsVal rest : Int) := by positivity
      have hps : ((2 : Int)) ^ (rest.length + 1) = 2 * 2 ^ rest.length := by ring
      by_cases hc : c = '1'
      · rw [if_pos hc, if_pos hc]
        push_cast
        constructor <;> linarith
      · rw [if_neg hc, if_neg hc]
        push_cast
        constructor <;> linarith
    · rw [if_neg h2] at h
      exact absurd h (by simp)

/-- Length of a Python slice is at most the width of the requested range. -/
theorem pySlice_len_le (s : String) (a b : Nat) :
    (pySlice s a b).data.length ≤ b - a := by
  simp [pySlice]

/-- Concatenation shape of the armor expansion: the fold is the flattening of
the per-character 6-bit groups. -/
theorem decode_ascii6_go (l : List Char) :
    ∀ acc : String,
      (l.foldl (fun binary_string c => binary_string ++ pyFormatB6 (armorVal c)) acc).data
        = acc.data ++ (l.map (fun c => (pyFormatB6 (armorVal c)).data)).flatten := by
  induction l with
  | nil => intro acc; simp
  | cons c t ih =>
    intro acc
    simp only [List.foldl_cons, List.map_cons, List.flatten]
    rw [ih (acc ++ pyFormatB6 (armorVal c))]
    simp [String.data_append]

/-- decode_ascii6 as a flattening of per-character groups. -/
theorem decode_ascii6_data (s : String) :
    (decode_ascii6 s).data = (s.data.map (fun c => (pyFormatB6 (armorVal c)).data)).flatten := by
  unfold decode_ascii6
  rw [decode_ascii6_go]
  rfl

/-- decode_ascii6 distributes over string concatenation. -/
theorem decode_ascii6_append (s t : String) :
    decode_ascii6 (s ++ t) = decode_ascii6 s ++ decode_ascii6 t := by
  apply String.ext
  rw [String.data_append, decode_ascii6_data, decode_ascii6_data, decode_ascii6_data,
    String.data_append]
  simp

/-- For the 64 in-range values, the 06b rendering is exactly 6 binary digits
denoting the value back. -/
theorem formatB6_small (n : Nat) (h : n < 64) :
    (pyFormatB6 (n : Int)).data.length = 6 ∧
      (∀ c ∈ (pyFormatB6 (n : Int)).data, isBinChar c) ∧
      bitsVal (pyFormatB6 (n : Int)).data = n := by
  revert h
  revert n
  decide

/-- Characters with code points 48..119 have adjusted armor values in 0..63. -/
theorem armorVal_range (c : Char) (h48 : 48 ≤ c.toNat) (h119 : c.toNat ≤ 119) :
    0 ≤ armorVal c ∧ armorVal c < 64 := by
  dsimp only [armorVal]
  split_ifs <;> omega

/-- Force the non-negative armor value through the integer branch of the
06b formatter. -/
theorem pyFormatB6_of_armor (c : Char) (h48 : 48 ≤ c.toNat) (h119 : c.toNat ≤ 119) :
    pyFormatB6 (armorVal c) = pyFormatB6 ((armorVal c).toNat : Int) := by
  obtain ⟨h0, _⟩ := armorVal_range c h48 h119
  rw [Int.toNat_of_nonneg h0]

/-- Per-character group facts on the armor alphabet: width exactly 6, all
binary digits, and the big-endian value is the adjusted armor value. -/
theorem armor_group_spec (c : Char) (h48 : 48 ≤ c.toNat) (h119 : c.toNat ≤ 119) :
    (pyFormatB6 (armorVal c)).data.length = 6 ∧
      (∀ b ∈ (pyFormatB6 (armorVal c)).data, isBinChar b) ∧
      (bitsVal (pyFormatB6 (armorVal c)).data : Int) = armorVal c := by
  obtain ⟨h0, h64⟩ := armorVal_range c h48 h119
  have hn : (armorVal c).toNat < 64 := by omega
  obtain ⟨hl, hb, hv⟩ := formatB6_small (armorVal c).toNat hn
  rw [pyFormatB6_of_armor c h48 h119]
  refine ⟨hl, hb, ?_⟩
  rw [hv]
  exact Int.toNat_of_nonneg h0

/-- List-level length of the armored expansion over the 48..119 alphabet. -/
theorem armor_flatten_length (l : List Char) (h : ∀ c ∈ l, 48 ≤ c.toNat ∧ c.toNat ≤ 119) :
    (l.map (fun c => (pyFormatB6 (armorVal c)).data)).flatten.length = 6 * l.length := by
  induction l with
  | nil => simp
  | cons c t ih =>
    have hc := h c (List.mem_cons_self c t)
    obtain ⟨hl, -, -⟩ := armor_group_spec c hc.1 hc.2
    simp only [List.map_cons, List.flatten_cons, List.length_append, List.length_cons, hl]
    rw [ih (fun x hx => h x (List.mem_cons_of_mem c hx))]
    ring

/-- List-level digit soundness of the armored expansion over the alphabet. -/
theorem armor_flatten_bits (l : List Char) (h : ∀ c ∈ l, 48 ≤ c.toNat ∧ c.toNat ≤ 119) :
    ∀ b ∈ (l.map (fun c => (pyFormatB6 (armorVal c)).data)).flatten, isBinChar b := by
  induction l with
  | nil => simp
  | cons c t ih =>
    have hc := h c (List.mem_cons_self c t)
    obtain ⟨-, hb, -⟩ := armor_group_spec c hc.1 hc.2
    intro b hbmem
    simp only [List.map_cons, List.flatten_cons, List.mem_append] at hbmem
    rcases hbmem with hb1 | hb2
    · exact hb b hb1
    · exact ih (fun x hx => h x (List.mem_cons_of_mem c hx)) b hb2

/-- On payloads over code points 48..119 the expansion is a bit string of
exactly 6 bits per character. -/
theorem decode_ascii6_alphabet (data : String)
    (h : ∀ c ∈ data.data, 48 ≤ c.toNat ∧ c.toNat ≤ 119) :
    (decode_ascii6 data).length = 6 * data.length ∧ isBitStr (decode_ascii6 data) := by
  have hd := decode_ascii6_data data
  constructor
  · show (decode_ascii6 data).data.length = 6 * data.data.length
    rw [hd]
    exact armor_flatten_length data.data h
  · intro b hb
    rw [hd] at hb
    exact armor_flatten_bits data.data h b hb

/-- Every chunk split_str produces is a non-empty substring drawn from the
characters of the input. -/
theorem split_str_mem (data : String) (ch : String) (h : ch ∈ split_str data) :
    ch.data ≠ [] ∧ ∀ c ∈ ch.data, c ∈ data.data := by
  unfold split_str at h
  rw [List.mem_map] at h
  obtain ⟨i, hi, hch⟩ := h
  rw [List.mem_range] at hi
  have h6 : (i + 1) * 6 ≤ data.length + 6 - 1 + 1 := by
    have := (Nat.le_div_iff_mul_le (by norm_num : 0 < 6)).mp (Nat.succ_le_of_lt hi)
    omega
  have hlt : i * 6 < data.length := by omega
  have hdl : data.length = data.data.length := rfl
  subst hch
  constructor
  · simp only [pySlice]
    intro hnil
    rcases List.take_eq_nil_iff.mp hnil with h' | h'
    · omega
    · rw [List.drop_eq_nil_iff] at h'
      omega
  · intro c hc
    simp only [pySlice] at hc
    exact List.mem_of_mem_drop (List.mem_of_mem_take hc)

/-- One step of the ascii6 loop on a non-empty binary chunk: never an error,
either the early return on the filler character or the decoded character
consed onto the rest. -/
theorem ascii6Go_cons_bits (ig : Bool) (ch : String) (rest : List String)
    (hne : ch.data ≠ []) (hbits : ∀ c ∈ ch.data, isBinChar c) :
    ascii6Go ig (ch :: rest) =
      if ig ∧ specChunkChar ch = '@' then .ok ""
      else Except.map (fun s => String.mk (specChunkChar ch :: s.data)) (ascii6Go ig rest) := by
  have hpy : pyIntBin? ch = some (bitsVal ch.data : Int) := pyIntBin?_of_bits ch hne hbits
  have htn : ((if (bitsVal ch.data : Int) < 32 then (bitsVal ch.data : Int) + 64
      else (bitsVal ch.data : Int))).toNat
      = (if bitsVal ch.data < 32 then bitsVal ch.data + 64 else bitsVal ch.data) := by
    split_ifs <;> omega
  have hc2 : ¬((if (bitsVal ch.data : Int) < 32 then (bitsVal ch.data : Int) + 64
      else (bitsVal ch.data : Int)) < 0) := by
    split_ifs <;> omega
  simp only [ascii6Go]
  rw [hpy]
  simp only [hc2, if_false, htn]
  rfl

/-- Characterization of the ascii6 loop on a list of non-empty binary chunks:
no stripping decodes every chunk, stripping keeps exactly the prefix of
decoded characters before the first filler '@'. -/
theorem ascii6Go_spec (l : List String)
    (h : ∀ ch ∈ l, ch.data ≠ [] ∧ ∀ c ∈ ch.data, isBinChar c) :
    ascii6Go false l = .ok (String.mk (l.map specChunkChar)) ∧
      ascii6Go true l = .ok (String.mk ((l.map specChunkChar).takeWhile (fun c => c != '@'))) := by
  induction l with
  | nil => exact ⟨rfl, rfl⟩
  | cons ch rest ih =>
    obtain ⟨hne, hbits⟩ := h ch (List.mem_cons_self ch rest)
    obtain ⟨ih1, ih2⟩ := ih (fun x hx => h x (List.mem_cons_of_mem ch hx))
    constructor
    · rw [ascii6Go_cons_bits false ch rest hne hbits]
      rw [if_neg (by simp)]
      rw [ih1]
      rfl
    · rw [ascii6Go_cons_bits true ch rest hne hbits]
      by_cases hat : specChunkChar ch = '@'
      · rw [if_pos ⟨rfl, hat⟩]
        simp only [List.map_cons, List.takeWhile]
        rw [hat]
        rfl
      · rw [if_neg (by simp [hat])]
        rw [ih2]
        simp only [List.map_cons, List.takeWhile]
        have : (specChunkChar ch != '@') = true := by simp [hat]
        rw [this]
        rfl

/-- The wrapped result of a field decoder is never the unpacking ValueError. -/
theorem wrapResult_ne_unpack {α : Type} (inj : α → DecodedMsg) (x : Except DexErr α) :
    wrapResult inj x ≠ .exn .unpackErr := by
  cases x <;> simp [wrapResult]

/-- Dispatch never produces the unpacking ValueError. -/
theorem decodeDispatch_ne_unpack (t : Int) (bv : String) :
    decodeDispatch t bv ≠ .exn .unpackErr := by
  unfold decodeDispatch
  split_ifs <;> first
    | exact wrapResult_ne_unpack _ _
    | simp

/-- The decode body after a successful 7-way unpacking never raises the
unpacking ValueError. -/
theorem decodeAfterSplit_ne_unpack (msg a b d e : String) :
    decodeAfterSplit msg a b d e ≠ .exn .unpackErr := by
  unfold decodeAfterSplit
  cases hbin : pyIntBin? (pySlice (decode_ascii6 d) 0 6) with
  | none => simp [hbin]
  | some t =>
    cases hhex : pyIntHex0x? (pySliceFrom e 2) with
    | none => simp [hbin, hhex]
    | some dec =>
      simp only [hbin, hhex]
      split_ifs <;> first
        | exact decodeDispatch_ne_unpack _ _
        | simp

/-- With a successful 7-way unpacking, decode runs the body on the bound
fields (n_sentences, sentence_num, data, chcksum). -/
theorem decode_eq_afterSplit (m t0 ns sn sq ch data cs : String)
    (h : pySplit m = [t0, ns, sn, sq, ch, data, cs]) :
    decode m = decodeAfterSplit m ns sn data cs := by
  unfold decode
  rw [h]

/-- When the comma split does not have exactly 7 fields, decode raises the
unpacking ValueError. -/
theorem decode_unpack_of_len (m : String) (h : (pySplit m).length ≠ 7) :
    decode m = .exn .unpackErr := by
  unfold decode
  rcases hl : pySplit m with _ | ⟨a, _ | ⟨b, _ | ⟨c, _ | ⟨d, _ | ⟨e, _ | ⟨f, _ | ⟨g, _ | ⟨x, t⟩⟩⟩⟩⟩⟩⟩⟩ <;>
    first
      | rfl
      | (exfalso; rw [hl] at h; simp at h)

/-- A list of length 7 is literally a 7-element list. -/
theorem exists_seven {α : Type} (l : List α) (h : l.length = 7) :
    ∃ a b c d e f g, l = [a, b, c, d, e, f, g] := by
  rcases l with _ | ⟨a, _ | ⟨b, _ | ⟨c, _ | ⟨d, _ | ⟨e, _ | ⟨f, _ | ⟨g, _ | ⟨x, t⟩⟩⟩⟩⟩⟩⟩⟩ <;>
    simp_all

/-- C5: for every input line which passes the checks decode performs earlier
(7-field split, message-type extraction from the expanded payload, checksum
parse and comparison) and whose fragment_count or fragment_index field
differs from "1", decode drops the sentence with the fragmentation failure
(the print-and-return-None branch) and produces no decoded message.  The
source signals this outcome by printing "Sentencing is not supported yet!"
and returning None. -/
theorem c5_fragmentation (m t0 ns sn sq ch data cs : String) (ty : Int) (d : Nat)
    (hsplit : pySplit m = [t0, ns, sn, sq, ch, data, cs])
    (hty : pyIntBin? (pySlice (decode_ascii6 data) 0 6) = some ty)
    (hhex : pyIntHex0x? (pySliceFrom cs 2) = some d)
    (hcs : checksum m = d)
    (hfrag : ns ≠ "1" ∨ sn ≠ "1") :
    decode m = .sentencingUnsupported := by
  rw [decode_eq_afterSplit m t0 ns sn sq ch data cs hsplit]
  unfold decodeAfterSplit
  simp only [hty, hhex]
  rw [if_pos hcs, if_pos hfrag]

/-- C5 witness: a concrete single-line sentence with fragment_count 2 and a
correct checksum is dropped as unsupported sentencing. -/
theorem c5_fragmentation_witness : decode "!A,2,1,,B,0000,0*30" = .sentencingUnsupported :=
  c5_fragmentation "!A,2,1,,B,0000,0*30" "!A" "2" "1" "" "B" "0000" "0*30" 0 48
    (by rfl) (by rfl) (by rfl) (by rfl) (Or.inl (by decide))

/-- C6: decode fails at the comma-split stage (the ValueError raised by
unpacking the split into seven names, the malformed-sentence signal) exactly
when the field count differs from 7; with exactly 7 fields it always
proceeds into the validation body, whose outcomes are all distinct from the
unpacking failure. -/
theorem c6_arity (m : String) :
    decode m = .exn .unpackErr ↔ (pySplit m).length ≠ 7 := by
  constructor
  · intro hd hlen
    obtain ⟨a, b, c, d, e, f, g, hl⟩ := exists_seven (pySplit m) hlen
    rw [decode_eq_afterSplit m a b c d e f g hl] at hd
    exact decodeAfterSplit_ne_unpack m b c f g hd
  · exact decode_unpack_of_len m

/-- C6 witness: a line with a single field raises the unpacking failure, and
its split indeed does not have 7 fields. -/
theorem c6_arity_witness : decode "!A" = .exn .unpackErr :=
  (c6_arity "!A").mpr (by decide)

/-- C10: for every input line whose sixth comma-separated field (the armored
payload) is empty, decode raises the int() ValueError while extracting the
message type from the empty expansion, before the checksum and fragmentation
checks run, so no DecodeResult outcome value is returned. -/
theorem c10_empty_payload (m t0 ns sn sq ch cs : String)
    (hsplit : pySplit m = [t0, ns, sn, sq, ch, "", cs]) :
    decode m = .exn (.err .intParse) := by
  rw [decode_eq_afterSplit m t0 ns sn sq ch "" cs hsplit]
  unfold decodeAfterSplit
  have hb : pyIntBin? (pySlice (decode_ascii6 "") 0 6) = none := rfl
  simp only [hb]

/-- C10 witness: a sentence with an empty payload whose checksum is also
wrong and whose fragment_count is also not "1" still raises the type
extraction error rather than reporting either later failure. -/
theorem c10_empty_payload_witness :
    decode "!A,2,1,,B,,0*00" = .exn (.err .intParse) ∧
      checksum "!A,2,1,,B,,0*00" ≠ 0 :=
  ⟨c10_empty_payload "!A,2,1,,B,,0*00" "!A" "2" "1" "" "B" "0*00" (by rfl), by decide⟩

/-- C2 counterexample: a syntactically valid 7-field line whose computed
checksum (51) differs from the declared value (0): the claim says decode
returns the checksum-mismatch failure before any further decoding, but the
code expands the armor and extracts the type first and so raises the int()
ValueError on this empty payload instead of reporting the mismatch. -/
theorem c2_checksum_gate_counterexample :
    (pySplit "!A,1,1,,B,,0*00").length = 7 ∧
      pyIntHex0x? (pySliceFrom "0*00" 2) = some 0 ∧
      checksum "!A,1,1,,B,,0*00" ≠ 0 ∧
      decode "!A,1,1,,B,,0*00" = .exn (.err .intParse) ∧
      decode "!A,1,1,,B,,0*00" ≠ .invalidChecksum := by
  refine ⟨by decide, by decide, by decide, ?_, ?_⟩ <;> decide

/-- C2 amended: on a 7-field line whose payload expands far enough for the
type extraction to succeed and whose declared checksum parses, a checksum
mismatch makes decode return the mismatch failure (print-and-None branch)
and never a decoded message; the armor expansion and type extraction,
however, run before this gate, not after it. -/
theorem c2_checksum_gate_amended (m t0 ns sn sq ch data cs : String) (ty : Int) (d : Nat)
    (hsplit : pySplit m = [t0, ns, sn, sq, ch, data, cs])
    (hty : pyIntBin? (pySlice (decode_ascii6 data) 0 6) = some ty)
    (hhex : pyIntHex0x? (pySliceFrom cs 2) = some d)
    (hcs : checksum m ≠ d) :
    decode m = .invalidChecksum := by
  rw [decode_eq_afterSplit m t0 ns sn sq ch data cs hsplit]
  unfold decodeAfterSplit
  simp only [hty, hhex]
  rw [if_neg hcs]

/-- C2 amended witness: a concrete line with payload "0" and declared
checksum 00 while the computed checksum is 3. -/
theorem c2_checksum_gate_amended_witness : decode "!A,1,1,,B,0,0*00" = .invalidChecksum :=
  c2_checksum_gate_amended "!A,1,1,,B,0,0*00" "!A" "1" "1" "" "B" "0" "0*00" 0 0
    (by decide) (by decide) (by decide) (by decide)

/-- C3 counterexample: a type-12 sentence (payload "<", an unimplemented
type in 6..17) and a type-25 sentence (payload "I", an out-of-range type code)
both pass every check and decode to the SAME bare None outcome: the stub
result carries no type code and is not distinct from the unknown-type
outcome, contradicting the claimed NotImplemented(type_code) value. -/
theorem c3_not_implemented_counterexample :
    pyIntBin? (pySlice (decode_ascii6 "<") 0 6) = some 12 ∧
      pyIntBin? (pySlice (decode_ascii6 "I") 0 6) = some 25 ∧
      decode "!A,1,1,,B,<,0*0F" = .retNone ∧
      decode "!A,1,1,,B,I,0*7A" = .retNone ∧
      decode "!A,1,1,,B,<,0*0F" = decode "!A,1,1,,B,I,0*7A" := by
  refine ⟨by decide, by decide, by decide, by decide, by decide⟩

/-- C3 amended: for every input that reaches dispatch (7 fields, type
extraction, checksum equality, both fragment fields "1") with a payload type
code in 6..17 or 19..24, decode calls the stub decoder and returns the bare
silent None outcome: it never throws and never yields a zero-filled record,
but the outcome carries no type code and coincides with the outcome for
type codes 0 or above 24. -/
theorem c3_not_implemented_amended (m t0 ns sn sq ch data cs : String) (ty : Int) (d : Nat)
    (hsplit : pySplit m = [t0, ns, sn, sq, ch, data, cs])
    (hty : pyIntBin? (pySlice (decode_ascii6 data) 0 6) = some ty)
    (hhex : pyIntHex0x? (pySliceFrom cs 2) = some d)
    (hcs : checksum m = d)
    (hns : ns = "1") (hsn : sn = "1")
    (h6 : 6 ≤ ty) (h24 : ty ≤ 24) (h18 : ty ≠ 18) :
    decode m = .retNone := by
  rw [decode_eq_afterSplit m t0 ns sn sq ch data cs hsplit]
  unfold decodeAfterSplit
  simp only [hty, hhex]
  rw [if_pos hcs]
  rw [if_neg (by simp [hns, hsn])]
  rw [if_pos (by constructor <;> omega)]
  unfold decodeDispatch
  rw [if_neg (by omega), if_neg (by omega), if_neg (by omega), if_neg (by omega),
    if_neg (by omega), if_neg h18]

/-- C3 amended witness: a concrete type-13 sentence (payload "=") with a
correct checksum reaches dispatch and yields the bare None outcome. -/
theorem c3_not_implemented_amended_witness : decode "!A,1,1,,B,=,0*0E" = .retNone :=
  c3_not_implemented_amended "!A,1,1,,B,=,0*0E" "!A" "1" "1" "" "B" "=" "0*0E" 13 14
    (by decide) (by decide) (by decide) (by decide) rfl rfl
    (by decide) (by decide) (by decide)

set_option maxRecDepth 10000 in
/-- C1 counterexample: the enum lookups can fail.  On a 168-bit vector with
maneuver code 3 the types-1/2/3 decoder raises KeyError 3, and on a 274-bit
vector with EPFD code 9 the type-5 decoder raises KeyError 9; neither code
is in its table and no fallback label is produced. -/
theorem c1_enum_fallback_counterexample :
    decode_msg_1 maneuver3bv = .error (.keyErr 3) ∧
      MANEUVER_INDICATOR.lookup 3 = none ∧
      decode_msg_5 epfd9bv = .error (.keyErr 9) ∧
      EPFD_TYPE.lookup 9 = none := by
  refine ⟨by rfl, by decide, by rfl, by decide⟩

/-- C9: for every bit vector on which the type-4 decoder succeeds, the
decoded longitude equals the decoded latitude, because both fields read
signed(bit_vector[66:72]) and divide by the same 600000.0 scale. -/
theorem c9_type4_lon_eq_lat (bv : String) (r : Msg4) (h : decode_msg_4 bv = .ok r) :
    r.lon = r.lat := by
  unfold decode_msg_4 at h
  simp only [bind, Except.bind, pure, Except.pure] at h
  repeat' split at h
  all_goals simp_all
  subst h
  rfl

set_option maxRecDepth 10000 in
/-- C9 witness: the all-zero 168-bit vector decodes as a type-4 record whose
longitude and latitude agree. -/
theorem c9_type4_lon_eq_lat_witness :
    decode_msg_4 zeros168 = .ok m4zero ∧ m4zero.lon = m4zero.lat := by
  have h : decode_msg_4 zeros168 = .ok m4zero := by rfl
  exact ⟨h, c9_type4_lon_eq_lat zeros168 m4zero h⟩

/-- Inversion for the guarded EPFD enum of the type-4 decoder: a successful
record always carries the table label or UNDEFINED. -/
theorem decode_msg_4_epfd (bv : String) (r : Msg4) (h : decode_msg_4 bv = .ok r) :
    r.epfd.2 = (EPFD_TYPE.lookup r.epfd.1).getD UNDEFINED := by
  unfold decode_msg_4 at h
  simp only [bind, Except.bind, pure, Except.pure] at h
  repeat' split at h
  all_goals simp_all
  subst h
  show dictGetD EPFD_TYPE _ = _
  unfold dictGetD
  cases EPFD_TYPE.lookup _ <;> rfl

/-- Inversion for the guarded ship-type enum of the type-5 decoder. -/
theorem decode_msg_5_shiptype (bv : String) (r : Msg5) (h : decode_msg_5 bv = .ok r) :
    r.shiptype.2 = (SHIP_TYPE.lookup r.shiptype.1).getD UNDEFINED := by
  unfold decode_msg_5 at h
  simp only [bind, Except.bind, pure, Except.pure] at h
  repeat' split at h
  all_goals simp_all
  subst h
  show dictGetD SHIP_TYPE _ = _
  unfold dictGetD
  cases SHIP_TYPE.lookup _ <;> rfl

/-- C1 amended: the guarded enum fields do carry (code, label) pairs with the
fixed fallback label: EPFD in type 4 and ship type in type 5 resolve through
their tables with fallback "Undefined", and the navigation-status table is
total on the 4-bit code space, so that lookup cannot fail; the
maneuver-indicator lookup in types 1/2/3 and the EPFD lookup in type 5,
however, are unguarded dict accesses that raise KeyError on codes absent
from their tables (shown by the counterexample). -/
theorem c1_enum_fallback_amended :
    (∀ (bv : String) (r : Msg4), decode_msg_4 bv = .ok r →
        r.epfd.2 = (EPFD_TYPE.lookup r.epfd.1).getD UNDEFINED) ∧
      (∀ (bv : String) (r : Msg5), decode_msg_5 bv = .ok r →
        r.shiptype.2 = (SHIP_TYPE.lookup r.shiptype.1).getD UNDEFINED) ∧
      (∀ k : Int, 0 ≤ k → k < 16 → (NAVIGATION_STATUS.lookup k).isSome = true) := by
  refine ⟨decode_msg_4_epfd, decode_msg_5_shiptype, ?_⟩
  intro k h0 h16
  interval_cases k <;> decide

set_option maxRecDepth 10000 in
/-- C1 amended witness: concrete instances of all three conjuncts, at the
all-zero type-4 vector, the empty type-5 vector, and status code 15. -/
theorem c1_enum_fallback_amended_witness :
    (decode_msg_4 zeros168 = .ok m4zero ∧
        m4zero.epfd.2 = (EPFD_TYPE.lookup m4zero.epfd.1).getD UNDEFINED) ∧
      (decode_msg_5 "" = .ok m5empty ∧
        m5empty.shiptype.2 = (SHIP_TYPE.lookup m5empty.shiptype.1).getD UNDEFINED) ∧
      (NAVIGATION_STATUS.lookup 15).isSome = true := by
  obtain ⟨h4, h5, hnav⟩ := c1_enum_fallback_amended
  exact ⟨⟨by rfl, h4 zeros168 m4zero (by rfl)⟩,
    ⟨by rfl, h5 "" m5empty (by rfl)⟩,
    hnav 15 (by decide) (by decide)⟩

/-- Inversion for the position fields of the types-1/2/3 decoder: a
successful record's lon and lat come from the signed conversions of the bit
ranges [61:89) and [89:116) divided by 600000. -/
theorem decode_msg_1_lon_lat (bv : String) (r : Msg1) (h : decode_msg_1 bv = .ok r) :
    ∃ vlon vlat : Int,
      signed (pySlice bv 61 89) = .ok vlon ∧ signed (pySlice bv 89 116) = .ok vlat ∧
        r.lon = Rat.divInt vlon 600000 ∧ r.lat = Rat.divInt vlat 600000 := by
  unfold decode_msg_1 at h
  simp only [bind, Except.bind, pure, Except.pure] at h
  repeat' split at h
  all_goals simp_all
  subst h
  exact ⟨rfl, rfl⟩

set_option maxRecDepth 10000 in
/-- C4 counterexample: a 168-bit type-1 payload whose longitude field bits
[61:89) hold 2^27 - 1 decodes successfully to a longitude of
134217727/600000, about 223.7 degrees, outside the claimed [-180, 180]. -/
theorem c4_lat_lon_range_counterexample :
    m1LonOf (decode_msg_1 bigLonBv) = some (Rat.divInt 134217727 600000) ∧
      (180 : Rat) < Rat.divInt 134217727 600000 := by
  constructor
  · rfl
  · decide

/-- C4 amended: for every bit vector the types-1/2/3 decoder accepts, the
scaled longitude lies in [-2^27/600000, (2^27-1)/600000], roughly
[-223.7, 223.7] degrees, and the scaled latitude lies in
[-2^26/600000, (2^26-1)/600000], roughly [-111.8, 111.8]; the two's
complement ranges of the 28- and 27-bit fields divided by 600000, not the
claimed [-180, 180] and [-90, 90]. -/
theorem c4_lat_lon_range_amended (bv : String) (r : Msg1) (h : decode_msg_1 bv = .ok r) :
    -(Rat.divInt 134217728 600000) ≤ r.lon ∧ r.lon ≤ Rat.divInt 134217727 600000 ∧
      -(Rat.divInt 67108864 600000) ≤ r.lat ∧ r.lat ≤ Rat.divInt 67108863 600000 := by
  obtain ⟨vlon, vlat, hlon, hlat, hrlon, hrlat⟩ := decode_msg_1_lon_lat bv r h
  obtain ⟨-, hlb1, hub1⟩ := signed_ok_bounds _ _ hlon
  obtain ⟨-, hlb2, hub2⟩ := signed_ok_bounds _ _ hlat
  have hl1 : (pySlice bv 61 89).data.length - 1 ≤ 27 := by
    have := pySlice_len_le bv 61 89
    omega
  have hl2 : (pySlice bv 89 116).data.length - 1 ≤ 26 := by
    have := pySlice_len_le bv 89 116
    omega
  have hp1 : (2 : Int) ^ ((pySlice bv 61 89).data.length - 1) ≤ 2 ^ 27 :=
    pow_le_pow_right₀ (by norm_num) hl1
  have hp2 : (2 : Int) ^ ((pySlice bv 89 116).data.length - 1) ≤ 2 ^ 26 :=
    pow_le_pow_right₀ (by norm_num) hl2
  have h27 : (2 : Int) ^ 27 = 134217728 := by norm_num
  have h26 : (2 : Int) ^ 26 = 67108864 := by norm_num
  have hvlon : -(134217728 : Int) ≤ vlon ∧ vlon ≤ 134217727 := by
    constructor <;> linarith
  have hvlat : -(67108864 : Int) ≤ vlat ∧ vlat ≤ 67108863 := by
    constructor <;> linarith
  rw [hrlon, hrlat]
  have h6 : (0 : Int) < 600000 := by norm_num
  refine ⟨?_, ?_, ?_, ?_⟩
  · rw [Rat.neg_divInt]
    rw [Rat.divInt_le_divInt h6 h6]
    nlinarith [hvlon.1]
  · rw [Rat.divInt_le_divInt h6 h6]
    nlinarith [hvlon.2]
  · rw [Rat.neg_divInt]
    rw [Rat.divInt_le_divInt h6 h6]
    nlinarith [hvlat.1]
  · rw [Rat.divInt_le_divInt h6 h6]
    nlinarith [hvlat.2]

set_option maxRecDepth 10000 in
/-- C4 amended witness: the amended bounds instantiated at the
maximal-longitude vector. -/
theorem c4_lat_lon_range_amended_witness :
    decode_msg_1 bigLonBv = .ok m1big ∧
      -(Rat.divInt 134217728 600000) ≤ m1big.lon ∧
      m1big.lon ≤ Rat.divInt 134217727 600000 ∧
      -(Rat.divInt 67108864 600000) ≤ m1big.lat ∧
      m1big.lat ≤ Rat.divInt 67108863 600000 := by
  have h : decode_msg_1 bigLonBv = .ok m1big := by rfl
  exact ⟨h, c4_lat_lon_range_amended bigLonBv m1big h⟩

/-- C7 counterexample: the armor expansion of the single character "x"
(code point 120, adjusted value 64) is the seven-digit group "1000000", so
the output length is not 6 times the number of payload characters. -/
theorem c7_armor_counterexample :
    decode_ascii6 "x" = "1000000" ∧ (decode_ascii6 "x").length ≠ 6 * ("x").length := by
  exact ⟨by rfl, by decide⟩

/-- C7 amended: the armor decoder maps each character c to ord(c) - 48 minus
8 when above 40 and concatenates the per-character groups in input order
(the homomorphism part holds for all inputs); restricted to characters with
code points 48..119, whose adjusted values fit 6 bits, each group is a
6-digit big-endian binary rendering of the adjusted value and the total
length is exactly 6 times the number of characters.  For characters above
code point 119 the group is longer than 6 digits, so the unrestricted claim
fails (see the counterexample). -/
theorem c7_armor_amended :
    (∀ s t : String, decode_ascii6 (s ++ t) = decode_ascii6 s ++ decode_ascii6 t) ∧
      (∀ c : Char, 48 ≤ c.toNat → c.toNat ≤ 119 →
        (decode_ascii6 (String.mk [c])).length = 6 ∧
          (bitsVal (decode_ascii6 (String.mk [c])).data : Int) = armorVal c) ∧
      (∀ data : String, (∀ c ∈ data.data, 48 ≤ c.toNat ∧ c.toNat ≤ 119) →
        (decode_ascii6 data).length = 6 * data.length ∧ isBitStr (decode_ascii6 data)) := by
  refine ⟨decode_ascii6_append, ?_, decode_ascii6_alphabet⟩
  intro c h48 h119
  obtain ⟨hl, -, hv⟩ := armor_group_spec c h48 h119
  have hd : (decode_ascii6 (String.mk [c])).data = (pyFormatB6 (armorVal c)).data := by
    rw [decode_ascii6_data]
    simp
  constructor
  · show (decode_ascii6 (String.mk [c])).data.length = 6
    rw [hd, hl]
  · rw [hd, hv]

/-- C7 amended witness: the three conjuncts at concrete inputs, including
the 6-bit group of "w" (code point 119) and the 12-bit expansion of "0P". -/
theorem c7_armor_amended_witness :
    decode_ascii6 ("0" ++ "P") = decode_ascii6 "0" ++ decode_ascii6 "P" ∧
      (decode_ascii6 (String.mk ['w'])).length = 6 ∧
      (decode_ascii6 "0P").length = 6 * ("0P").length := by
  obtain ⟨happ, hchar, hall⟩ := c7_armor_amended
  exact ⟨happ "0" "P", (hchar 'w' (by decide) (by decide)).1,
    (hall "0P" (by decide)).1⟩

/-- C8: on every bit range, the packed-text decoder reads consecutive 6-bit
chunks as unsigned integers, adds 64 below 32 and takes the result as a code
point: with filler stripping disabled it decodes the full range, and with
stripping enabled it returns exactly the decoded characters strictly before
the first chunk decoding to the filler character at code point 64, including
nothing at or after that sentinel. -/
theorem c8_ascii6_text (data : String) (h : isBitStr data) :
    ascii6 data false = .ok (String.mk ((split_str data).map specChunkChar)) ∧
      ascii6 data true
        = .ok (String.mk (((split_str data).map specChunkChar).takeWhile (fun c => c != '@'))) := by
  unfold ascii6
  apply ascii6Go_spec
  intro ch hch
  obtain ⟨hne, hsub⟩ := split_str_mem data ch hch
  exact ⟨hne, fun c hc => h c (hsub c hc)⟩

/-- C8 witness: the three-chunk bit string 010101 000000 010101 decodes to
"U@U" without stripping and stops at the filler giving "U" with stripping. -/
theorem c8_ascii6_text_witness :
    ascii6 "010101000000010101" false = .ok "U@U" ∧
      ascii6 "010101000000010101" true = .ok "U" := by
  obtain ⟨h1, h2⟩ := c8_ascii6_text "010101000000010101" (by decide)
  exact ⟨h1.trans (by rfl), h2.trans (by rfl)⟩
